import Mathlib

/-!
# Verification of the FireGuardian live-reading decoder

Shallow embedding of the line-by-line Arduino decoder in `src/main.py`
(`read_from_arduino`, lines 81-201), together with the global state it
mutates (`helmet_live_data`, lines 29-40, and `current_reading`,
lines 43-51), and the numeric field extractor `extract_number`
(lines 93-103).

Modelling conventions:
* Python strings are `List Char`; `str.__contains__` is `hasSubstr`,
  `str.upper` is `upperCL` (inputs of interest are ASCII),
  `str.strip` is `stripCL`, `str.replace` is `replaceAll`.
* Python floats are modelled as exact decimals `Dec` (mantissa + base-10
  exponent); the program never performs float arithmetic or float
  comparison — parsed values are only stored and copied — so the exact
  representation is faithful.  `Dec.toRat` gives the denoted rational.
* I/O (serial reads, printing, the JSON dump at lines 182-183) and the
  wall-clock timestamp (line 166) are outside the state the claims are
  about and are not modelled; a `Reading`/history entry carries the seven
  data fields of lines 167-173.
* The infinite loop is modelled by folding the per-line body
  (`processLine`) over a list of input lines (`processLines`).
-/

/-- One character of Python whitespace as recognised by `str.strip`
(ASCII fragment; all inputs of interest are ASCII). -/
def isSpaceChar (c : Char) : Bool :=
  c = ' ' || c = '\t' || c = '\n' || c = '\r' || c = '\x0b' || c = '\x0c'

/-- `startsWithCL s pat`: `pat` is a prefix of `s` (Python `s.startswith(pat)`). -/
def startsWithCL : List Char → List Char → Bool
  | _, [] => true
  | [], _ :: _ => false
  | a :: as, b :: bs => (b = a) && startsWithCL as bs

/-- `hasSubstr s pat`: `pat` occurs as a contiguous substring of `s`
(Python `pat in s`). -/
def hasSubstr : List Char → List Char → Bool
  | [], pat => pat.isEmpty
  | c :: cs, pat => startsWithCL (c :: cs) pat || hasSubstr cs pat

/-- Python `s.replace(pat, rep)` for a non-empty pattern: left-to-right,
non-overlapping.  The `fuel` argument (instantiated with `s.length`) makes
the recursion structural; each step consumes at least one character. -/
def replaceAllFuel (pat rep : List Char) : Nat → List Char → List Char
  | _, [] => []
  | 0, s => s
  | fuel + 1, c :: cs =>
    if !pat.isEmpty && startsWithCL (c :: cs) pat then
      rep ++ replaceAllFuel pat rep fuel (cs.drop (pat.length - 1))
    else
      c :: replaceAllFuel pat rep fuel cs

/-- Python `s.replace(pat, rep)` (for the non-empty patterns used at
`src/main.py:90`). -/
def replaceAll (pat rep s : List Char) : List Char :=
  replaceAllFuel pat rep s.length s

/-- Python `s.strip()`: drop whitespace from both ends. -/
def stripCL (s : List Char) : List Char :=
  ((s.dropWhile isSpaceChar).reverse.dropWhile isSpaceChar).reverse

/-- Python `s.upper()` (ASCII fragment). -/
def upperCL (s : List Char) : List Char := s.map Char.toUpper

/-- `src/main.py:90`: `norm = line.replace("SpO₂", "SpO2").replace("º", "").strip()`. -/
def normalizeLine (line : List Char) : List Char :=
  stripCL (replaceAll (("º").data) [] (replaceAll (("SpO₂").data) (("SpO2").data) line))

/-! ## Exact decimals standing for Python floats -/

/-- An exact decimal `num / 10 ^ exp`, the value of a parsed numeric
literal.  Python `float` values in this program are only ever produced by
`float(...)` on a matched literal, stored, and copied — never added,
compared, or rounded — so exact decimals are a faithful model. -/
structure Dec where
  num : Int
  exp : Nat
deriving DecidableEq

/-- The rational number a `Dec` denotes. -/
def Dec.toRat (d : Dec) : Rat := (d.num : Rat) / ((10 : Rat) ^ d.exp)

/-- Python `int(x)` on a float: truncation toward zero. -/
def Dec.toIntTrunc (d : Dec) : Int :=
  if d.num < 0 then -(((-d.num).toNat / 10 ^ d.exp : Nat) : Int)
  else (((d.num.toNat / 10 ^ d.exp : Nat)) : Int)

/-! ## The regular-expression search of `extract_number`

`src/main.py:97` searches for the leftmost match of `[-+]?\d*\.?\d+`.
`digitRun` is the length of the maximal digit run at the head of a list;
`matchCore` is the greedy match of `\d*\.?\d+` at a fixed position,
`matchAt` additionally tries the optional sign, and `reSearch` scans for
the leftmost position with a match, exactly as `re.search` does. -/

/-- Length of the maximal run of decimal digits at the head. -/
def digitRun : List Char → Nat
  | [] => 0
  | c :: cs => if c.isDigit then digitRun cs + 1 else 0

/-- Greedy match of `\d*\.?\d+` at the head of `cs`, returning the matched
characters.  Greedy matching with backtracking yields: the digit run, then
`.` plus a further digit run when a digit follows the dot, else just the
digit run (which must be non-empty). -/
def matchCore (cs : List Char) : Option (List Char) :=
  let n := digitRun cs
  match cs.drop n with
  | '.' :: r2 =>
    if digitRun r2 > 0 then some (cs.take n ++ '.' :: r2.take (digitRun r2))
    else if n > 0 then some (cs.take n) else none
  | _ => if n > 0 then some (cs.take n) else none

/-- Greedy match of `[-+]?\d*\.?\d+` at the head of `cs`. -/
def matchAt (cs : List Char) : Option (List Char) :=
  match cs with
  | [] => none
  | c :: rest =>
    if c = '+' || c = '-' then
      match matchCore rest with
      | some t => some (c :: t)
      | none => matchCore cs
    else matchCore cs

/-- `re.search(r"[-+]?\d*\.?\d+", s)`: the leftmost match. -/
def reSearch : List Char → Option (List Char)
  | [] => none
  | c :: cs =>
    match matchAt (c :: cs) with
    | some t => some t
    | none => reSearch cs

/-- Decimal digits to a natural number. -/
def digitsToNat (ds : List Char) : Nat :=
  ds.foldl (fun a c => a * 10 + (c.toNat - ('0').toNat)) 0

/-- Value of an unsigned matched literal: `digits`, `digits.digits`, or
`.digits`. -/
def parseUnsigned (t : List Char) : Dec :=
  let intPart := t.takeWhile Char.isDigit
  match t.dropWhile Char.isDigit with
  | '.' :: frac => ⟨(digitsToNat intPart * 10 ^ frac.length + digitsToNat frac : Nat), frac.length⟩
  | _ => ⟨(digitsToNat intPart : Nat), 0⟩

/-- Python `float(m.group())` on a matched literal (always well-formed, so
the `ValueError` branch at `src/main.py:102` is unreachable). -/
def parseFloatTok (t : List Char) : Dec :=
  match t with
  | '-' :: r => let u := parseUnsigned r; ⟨-u.num, u.exp⟩
  | '+' :: r => parseUnsigned r
  | _ => parseUnsigned t

/-- Python `s.split(":", 1)[1]`: everything after the first colon. -/
def afterColon : List Char → List Char
  | [] => []
  | c :: cs => if c = ':' then cs else afterColon cs

/-- `src/main.py:93-103`: extract the first number after the first colon
(or the first number anywhere when there is no colon); `none` when the
pattern does not match. -/
def extract_number (s : List Char) : Option Dec :=
  let s := if hasSubstr s ((":").data) then afterColon s else s
  (reSearch s).map parseFloatTok

/-! ## The mutable state of the decoder -/

/-- `current_reading` (`src/main.py:43-51`): the in-flight partial reading;
every field `None` until a line sets it. -/
structure PartialReading where
  temperature : Option Dec
  mq2_value : Option Int
  flame_detected : Option Bool
  heart_rate : Option Dec
  heart_rate_avg : Option Dec
  spo2 : Option Dec
  alert_status : Option String
deriving DecidableEq

/-- One entry of `helmet_live_data["history"]` (`src/main.py:165-174`;
the wall-clock `timestamp` of line 166 is not modelled). -/
structure HistoryEntry where
  temperature : Option Dec
  mq2_value : Option Int
  flame_detected : Option Bool
  heart_rate : Option Dec
  heart_rate_avg : Option Dec
  spo2 : Option Dec
  alert_status : Option String
deriving DecidableEq

/-- `helmet_live_data` (`src/main.py:29-40`): flat current snapshot plus
the bounded history. -/
structure HelmetLiveData where
  helmet_id : String
  name : String
  temperature : Option Dec
  humidity : Int
  mq2_value : Option Int
  flame_detected : Option Bool
  alert_status : Option String
  heartRate : Option Dec
  spo2 : Option Dec
  history : List HistoryEntry
deriving DecidableEq

/-- The whole mutable state of `read_from_arduino`. -/
structure LoopState where
  helmet_live_data : HelmetLiveData
  current_reading : PartialReading
deriving DecidableEq

/-- Initial `current_reading` (`src/main.py:43-51`), also the post-finalize
reset value (lines 189-197). -/
def initReading : PartialReading := ⟨none, none, none, none, none, none, none⟩

/-- Initial `helmet_live_data` (`src/main.py:29-40`). -/
def initHelmet : HelmetLiveData :=
  ⟨("H1"), ("John Doe"), some ⟨0, 0⟩, 0, some 0, some false, some ("Normal"),
   some ⟨0, 0⟩, some ⟨0, 0⟩, []⟩

/-- Initial loop state. -/
def initState : LoopState := ⟨initHelmet, initReading⟩

/-- The trigger branch of the loop body (`src/main.py:148-197`): compute
the alert flag from the raw line, overwrite the partial reading's alert
status, and — provided temperature or gas level is present — publish the
snapshot, append a history entry, evict the front entry past 100, and
reset the partial reading. -/
def triggerStep (st : LoopState) (line : List Char) : LoopState :=
  let alert := hasSubstr line (("ALERT").data) || hasSubstr line (("🚨").data)
  let cr := { st.current_reading with
                alert_status := some (if alert then ("ALERT") else ("Normal")) }
  if cr.temperature.isSome || cr.mq2_value.isSome then
    let hld := { st.helmet_live_data with
                   temperature := cr.temperature
                   mq2_value := cr.mq2_value
                   flame_detected := cr.flame_detected
                   heartRate := if cr.heart_rate.isSome then cr.heart_rate else cr.heart_rate_avg
                   spo2 := cr.spo2
                   alert_status := cr.alert_status }
    let entry : HistoryEntry :=
      ⟨cr.temperature, cr.mq2_value, cr.flame_detected, cr.heart_rate,
       cr.heart_rate_avg, cr.spo2, cr.alert_status⟩
    let hist := hld.history ++ [entry]
    let hist2 := if hist.length > 100 then hist.drop 1 else hist
    { helmet_live_data := { hld with history := hist2 }, current_reading := initReading }
  else
    { st with current_reading := cr }

/-- One iteration of the loop body of `read_from_arduino`
(`src/main.py:83-197`) on an already-stripped input line. -/
def processLine (st : LoopState) (line : List Char) : LoopState :=
  if line.isEmpty then st
  else
    let norm := normalizeLine line
    if hasSubstr norm (("Temperature").data) && hasSubstr norm ((":").data) then
      { st with current_reading := { st.current_reading with
          temperature := some ((extract_number norm).getD ⟨0, 0⟩) } }
    else if hasSubstr norm (("MQ2 Value").data) then
      { st with current_reading := { st.current_reading with
          mq2_value := some (match extract_number norm with
                             | some v => v.toIntTrunc
                             | none => 0) } }
    else if hasSubstr norm (("Smoke Detected").data) then
      let cr := { st.current_reading with flame_detected := some false }
      let cr2 := if hasSubstr (upperCL norm) (("YES").data) then
                   { cr with alert_status := some ("Smoke Alert") }
                 else cr
      { st with current_reading := cr2 }
    else if hasSubstr norm (("Flame Detected?").data)
            || (hasSubstr norm (("Flame Detected").data)
                && !hasSubstr norm (("Flame Raw").data)) then
      { st with current_reading := { st.current_reading with
          flame_detected := some (hasSubstr (upperCL norm) (("YES").data)) } }
    else if hasSubstr norm (("Avg HR").data) then
      { st with current_reading := { st.current_reading with
          heart_rate_avg := extract_number norm } }
    else if hasSubstr norm (("HR (BPM)").data) || hasSubstr norm (("Heart Rate").data) then
      { st with current_reading := { st.current_reading with
          heart_rate := extract_number norm } }
    else if hasSubstr norm (("SpO2 (%)").data) then
      { st with current_reading := { st.current_reading with
          spo2 := some ((extract_number norm).getD ⟨0, 0⟩) } }
    else if hasSubstr line (("ALERT STATUS").data) then
      triggerStep st line
    else st

/-- The loop, folded over a finite list of input lines. -/
def processLines (st : LoopState) : List (List Char) → LoopState
  | [] => st
  | l :: ls => processLines (processLine st l) ls

/-! ## The finalize-order view of the loop

`stepEntry st line` is the `Reading` (history entry) finalized by
processing `line` in state `st`, if any — the branch structure mirrors
`processLine`, returning `none` on every branch except a trigger line
passing the guard of `src/main.py:154`.  `entriesFrom st lines` collects
the finalized entries in finalize order; `boundedAppend` is the
append-then-evict of `src/main.py:177-179`. -/

def stepEntry (st : LoopState) (line : List Char) : Option HistoryEntry :=
  if line.isEmpty then none
  else
    let norm := normalizeLine line
    if hasSubstr norm (("Temperature").data) && hasSubstr norm ((":").data) then none
    else if hasSubstr norm (("MQ2 Value").data) then none
    else if hasSubstr norm (("Smoke Detected").data) then none
    else if hasSubstr norm (("Flame Detected?").data)
            || (hasSubstr norm (("Flame Detected").data)
                && !hasSubstr norm (("Flame Raw").data)) then none
    else if hasSubstr norm (("Avg HR").data) then none
    else if hasSubstr norm (("HR (BPM)").data) || hasSubstr norm (("Heart Rate").data) then none
    else if hasSubstr norm (("SpO2 (%)").data) then none
    else if hasSubstr line (("ALERT STATUS").data) then
      let alert := hasSubstr line (("ALERT").data) || hasSubstr line (("🚨").data)
      let cr := { st.current_reading with
                    alert_status := some (if alert then ("ALERT") else ("Normal")) }
      if cr.temperature.isSome || cr.mq2_value.isSome then
        some ⟨cr.temperature, cr.mq2_value, cr.flame_detected, cr.heart_rate,
              cr.heart_rate_avg, cr.spo2, cr.alert_status⟩
      else none
    else none

/-- Append an optional entry, evicting the front entry when the length
exceeds 100 (`src/main.py:177-179`). -/
def boundedAppend (h : List HistoryEntry) : Option HistoryEntry → List HistoryEntry
  | none => h
  | some e =>
    let h2 := h ++ [e]
    if h2.length > 100 then h2.drop 1 else h2

/-- All entries finalized while processing `lines` from `st`, in finalize
order. -/
def entriesFrom (st : LoopState) : List (List Char) → List HistoryEntry
  | [] => []
  | l :: ls => (stepEntry st l).toList ++ entriesFrom (processLine st l) ls

/-- The last `n` elements of a list. -/
def lastN (n : Nat) (l : List α) : List α := l.drop (l.length - n)

/-- The flat snapshot fields of `helmet_live_data` agree with the last
history entry (vacuously true while the history is empty).  The snapshot
heart rate is the entry's instant heart rate when present, else its
average (`src/main.py:160`). -/
def snapshotAgreesB (h : HelmetLiveData) : Bool :=
  match h.history.getLast? with
  | none => true
  | some e =>
    decide (h.temperature = e.temperature) && decide (h.mq2_value = e.mq2_value)
      && decide (h.flame_detected = e.flame_detected)
      && decide (h.heartRate = (if e.heart_rate.isSome then e.heart_rate else e.heart_rate_avg))
      && decide (h.spo2 = e.spo2) && decide (h.alert_status = e.alert_status)

/-- The four input lines of the C1 scenario. -/
def scenario1Lines : List (List Char) :=
  [(("Temperature: 28.5").data), (("MQ2 Value: 120").data),
   (("Flame Detected? NO").data), (("ALERT STATUS: Normal").data)]

/-- Master case analysis of one loop iteration: either the published state
is untouched and no entry was finalized, or exactly the entry
`stepEntry st line` was appended (with eviction) and the flat snapshot
fields were set from that same entry. -/
theorem helmet_step (st : LoopState) (line : List Char) :
    ((processLine st line).helmet_live_data = st.helmet_live_data
      ∧ stepEntry st line = none) ∨
    (∃ e, stepEntry st line = some e ∧
      (processLine st line).helmet_live_data =
        { st.helmet_live_data with
            temperature := e.temperature
            mq2_value := e.mq2_value
            flame_detected := e.flame_detected
            heartRate := if e.heart_rate.isSome then e.heart_rate else e.heart_rate_avg
            spo2 := e.spo2
            alert_status := e.alert_status
            history := boundedAppend st.helmet_live_data.history (some e) }) := by
  by_cases h0 : line.isEmpty = true
  · exact Or.inl (by simp [processLine, stepEntry, h0])
  simp only [processLine, stepEntry, if_neg h0]
  by_cases h1 : (hasSubstr (normalizeLine line) (("Temperature").data)
                  && hasSubstr (normalizeLine line) ((":").data)) = true
  · simp only [if_pos h1]; exact Or.inl ⟨by trivial, by trivial⟩
  simp only [if_neg h1]
  by_cases h2 : hasSubstr (normalizeLine line) (("MQ2 Value").data) = true
  · simp only [if_pos h2]; exact Or.inl ⟨by trivial, by trivial⟩
  simp only [if_neg h2]
  by_cases h3 : hasSubstr (normalizeLine line) (("Smoke Detected").data) = true
  · simp only [if_pos h3]; exact Or.inl ⟨by trivial, by trivial⟩
  simp only [if_neg h3]
  by_cases h4 : (hasSubstr (normalizeLine line) (("Flame Detected?").data)
                  || (hasSubstr (normalizeLine line) (("Flame Detected").data)
                      && !hasSubstr (normalizeLine line) (("Flame Raw").data))) = true
  · simp only [if_pos h4]; exact Or.inl ⟨by trivial, by trivial⟩
  simp only [if_neg h4]
  by_cases h5 : hasSubstr (normalizeLine line) (("Avg HR").data) = true
  · simp only [if_pos h5]; exact Or.inl ⟨by trivial, by trivial⟩
  simp only [if_neg h5]
  by_cases h6 : (hasSubstr (normalizeLine line) (("HR (BPM)").data)
                  || hasSubstr (normalizeLine line) (("Heart Rate").data)) = true
  · simp only [if_pos h6]; exact Or.inl ⟨by trivial, by trivial⟩
  simp only [if_neg h6]
  by_cases h7 : hasSubstr (normalizeLine line) (("SpO2 (%)").data) = true
  · simp only [if_pos h7]; exact Or.inl ⟨by trivial, by trivial⟩
  simp only [if_neg h7]
  by_cases h8 : hasSubstr line (("ALERT STATUS").data) = true
  · simp only [if_pos h8, triggerStep]
    by_cases hg : (st.current_reading.temperature.isSome
                    || st.current_reading.mq2_value.isSome) = true
    · simp only [if_pos hg]
      exact Or.inr ⟨⟨st.current_reading.temperature, st.current_reading.mq2_value,
        st.current_reading.flame_detected, st.current_reading.heart_rate,
        st.current_reading.heart_rate_avg, st.current_reading.spo2,
        some (if (hasSubstr line (("ALERT").data) || hasSubstr line (("🚨").data)) = true
              then ("ALERT") else ("Normal"))⟩, by trivial, by trivial⟩
    · simp only [if_neg hg]; exact Or.inl ⟨by trivial, by trivial⟩
  · simp only [if_neg h8]; exact Or.inl ⟨by trivial, by trivial⟩

/-- Keeping the last `n` of a list already cut to its last `n` elements,
after appending, is keeping the last `n` of the whole. -/
theorem lastN_lastN_append (n : Nat) (a b : List α) :
    lastN n (lastN n a ++ b) = lastN n (a ++ b) := by
  unfold lastN
  rw [show a.drop (a.length - n) ++ b = (a ++ b).drop (a.length - n) from
        (List.drop_append_of_le_length (Nat.sub_le _ _)).symm,
      List.drop_drop]
  simp only [List.length_drop, List.length_append]
  congr 1
  omega

/-- `boundedAppend` keeps exactly the last 100 entries. -/
theorem boundedAppend_eq_lastN (h : List HistoryEntry) (e : Option HistoryEntry)
    (hlen : h.length ≤ 100) :
    boundedAppend h e = lastN 100 (h ++ e.toList) := by
  cases e with
  | none =>
    simp [boundedAppend, lastN, Nat.sub_eq_zero_of_le hlen]
  | some e =>
    simp only [boundedAppend, Option.toList]
    split
    · unfold lastN
      congr 1
      simp only [List.length_append, List.length_singleton] at *
      omega
    · unfold lastN
      rw [Nat.sub_eq_zero_of_le (by simp only [List.length_append, List.length_singleton] at *; omega),
          List.drop_zero]

/-- `boundedAppend` preserves the 100-entry bound. -/
theorem boundedAppend_length (h : List HistoryEntry) (e : Option HistoryEntry)
    (hlen : h.length ≤ 100) : (boundedAppend h e).length ≤ 100 := by
  cases e with
  | none => exact hlen
  | some e =>
    simp only [boundedAppend]
    split <;> rename_i hc <;>
      simp only [List.length_drop, List.length_append, List.length_singleton] at hc ⊢ <;> omega

/-- Processing any line list keeps History equal to the last 100 finalized
entries (after the initial contents), in finalize order. -/
theorem processLines_history (lines : List (List Char)) :
    ∀ st : LoopState, st.helmet_live_data.history.length ≤ 100 →
      (processLines st lines).helmet_live_data.history
        = lastN 100 (st.helmet_live_data.history ++ entriesFrom st lines) := by
  induction lines with
  | nil =>
    intro st h
    simp [processLines, entriesFrom, lastN, Nat.sub_eq_zero_of_le h]
  | cons l ls ih =>
    intro st h
    have hstep := helmet_step st l
    rcases hstep with ⟨heq, hnone⟩ | ⟨e, hsome, heq⟩
    · have hh : (processLine st l).helmet_live_data.history = st.helmet_live_data.history := by
        rw [heq]
      show (processLines (processLine st l) ls).helmet_live_data.history = _
      rw [ih (processLine st l) (by rw [hh]; exact h), hh]
      simp [entriesFrom, hnone]
    · have hh : (processLine st l).helmet_live_data.history
          = boundedAppend st.helmet_live_data.history (some e) := by
        rw [heq]
      show (processLines (processLine st l) ls).helmet_live_data.history = _
      rw [ih (processLine st l)
            (by rw [hh]; exact boundedAppend_length _ _ h), hh,
          boundedAppend_eq_lastN _ _ h, lastN_lastN_append]
      simp [entriesFrom, hsome]

/-- History length never exceeds 100 from any state within the bound. -/
theorem processLines_history_length (lines : List (List Char)) :
    ∀ st : LoopState, st.helmet_live_data.history.length ≤ 100 →
      (processLines st lines).helmet_live_data.history.length ≤ 100 := by
  induction lines with
  | nil => intro st h; exact h
  | cons l ls ih =>
    intro st h
    rcases helmet_step st l with ⟨heq, _⟩ | ⟨e, _, heq⟩
    · have hh : (processLine st l).helmet_live_data.history = st.helmet_live_data.history := by
        rw [heq]
      exact ih (processLine st l) (by rw [hh]; exact h)
    · have hh : (processLine st l).helmet_live_data.history
          = boundedAppend st.helmet_live_data.history (some e) := by
        rw [heq]
      exact ih (processLine st l) (by rw [hh]; exact boundedAppend_length _ _ h)

/-! ## Substring and stepEntry facts -/

/-- A list starting with `p ++ q` starts with `p`. -/
theorem startsWithCL_append_left (p q s : List Char)
    (h : startsWithCL s (p ++ q) = true) : startsWithCL s p = true := by
  induction p generalizing s with
  | nil => cases s <;> rfl
  | cons b bs ih =>
    cases s with
    | nil => simp [startsWithCL] at h
    | cons a as =>
      simp only [List.cons_append, startsWithCL, Bool.and_eq_true, decide_eq_true_eq] at h ⊢
      exact ⟨h.1, ih as h.2⟩

/-- A string containing `p ++ q` contains `p`. -/
theorem hasSubstr_append_left (p q s : List Char)
    (h : hasSubstr s (p ++ q) = true) : hasSubstr s p = true := by
  induction s with
  | nil =>
    simp only [hasSubstr, List.isEmpty_eq_true, List.append_eq_nil] at h ⊢
    exact h.1
  | cons c cs ih =>
    simp only [hasSubstr, Bool.or_eq_true] at h ⊢
    rcases h with h | h
    · exact Or.inl (startsWithCL_append_left _ _ _ h)
    · exact Or.inr (ih h)

/-- A trigger line always carries the affirmative marker: `"ALERT"` is a
prefix of the trigger keyword `"ALERT STATUS"` itself
(`src/main.py:148-149`). -/
theorem trigger_has_alert (line : List Char)
    (h : hasSubstr line (("ALERT STATUS").data) = true) :
    hasSubstr line (("ALERT").data) = true := by
  apply hasSubstr_append_left (("ALERT").data) ((" STATUS").data)
  rw [show ("ALERT").data ++ (" STATUS").data = ("ALERT STATUS").data from by decide]
  exact h

/-- An entry is finalized only on a trigger line passing the guard of
`src/main.py:154`, and — since the affirmative check at line 149 matches
the trigger keyword itself — always carries alert status `"ALERT"`. -/
theorem stepEntry_spec (st : LoopState) (line : List Char) (e : HistoryEntry)
    (h : stepEntry st line = some e) :
    e.alert_status = some ("ALERT")
    ∧ (st.current_reading.temperature.isSome || st.current_reading.mq2_value.isSome) = true := by
  by_cases h0 : line.isEmpty = true
  · simp only [stepEntry, if_pos h0] at h; exact Option.noConfusion h
  simp only [stepEntry, if_neg h0] at h
  by_cases h1 : (hasSubstr (normalizeLine line) (("Temperature").data)
                  && hasSubstr (normalizeLine line) ((":").data)) = true
  · simp only [if_pos h1] at h; exact Option.noConfusion h
  simp only [if_neg h1] at h
  by_cases h2 : hasSubstr (normalizeLine line) (("MQ2 Value").data) = true
  · simp only [if_pos h2] at h; exact Option.noConfusion h
  simp only [if_neg h2] at h
  by_cases h3 : hasSubstr (normalizeLine line) (("Smoke Detected").data) = true
  · simp only [if_pos h3] at h; exact Option.noConfusion h
  simp only [if_neg h3] at h
  by_cases h4 : (hasSubstr (normalizeLine line) (("Flame Detected?").data)
                  || (hasSubstr (normalizeLine line) (("Flame Detected").data)
                      && !hasSubstr (normalizeLine line) (("Flame Raw").data))) = true
  · simp only [if_pos h4] at h; exact Option.noConfusion h
  simp only [if_neg h4] at h
  by_cases h5 : hasSubstr (normalizeLine line) (("Avg HR").data) = true
  · simp only [if_pos h5] at h; exact Option.noConfusion h
  simp only [if_neg h5] at h
  by_cases h6 : (hasSubstr (normalizeLine line) (("HR (BPM)").data)
                  || hasSubstr (normalizeLine line) (("Heart Rate").data)) = true
  · simp only [if_pos h6] at h; exact Option.noConfusion h
  simp only [if_neg h6] at h
  by_cases h7 : hasSubstr (normalizeLine line) (("SpO2 (%)").data) = true
  · simp only [if_pos h7] at h; exact Option.noConfusion h
  simp only [if_neg h7] at h
  by_cases h8 : hasSubstr line (("ALERT STATUS").data) = true
  · simp only [if_pos h8] at h
    by_cases hg : (st.current_reading.temperature.isSome
                    || st.current_reading.mq2_value.isSome) = true
    · simp only [if_pos hg, Option.some.injEq] at h
      refine ⟨?_, hg⟩
      rw [← h]
      simp [trigger_has_alert line h8]
    · simp only [if_neg hg] at h; exact Option.noConfusion h
  · simp only [if_neg h8] at h; exact Option.noConfusion h

/-! ## Snapshot / history-tail agreement -/

/-- The last element after a bounded append is the appended entry. -/
theorem getLast?_boundedAppend (h : List HistoryEntry) (e : HistoryEntry) :
    (boundedAppend h (some e)).getLast? = some e := by
  simp only [boundedAppend]
  split
  · rename_i hc
    cases h with
    | nil => simp at hc
    | cons a h2 => simp [List.getLast?_concat]
  · exact List.getLast?_concat _

/-- One loop iteration preserves snapshot / history-tail agreement. -/
theorem snapshot_step (st : LoopState) (line : List Char)
    (h : snapshotAgreesB st.helmet_live_data = true) :
    snapshotAgreesB (processLine st line).helmet_live_data = true := by
  rcases helmet_step st line with ⟨heq, _⟩ | ⟨e, _, heq⟩
  · rw [heq]; exact h
  · rw [heq]
    simp [snapshotAgreesB, getLast?_boundedAppend]

/-- Snapshot / history-tail agreement holds along any processed line list. -/
theorem snapshotAgrees_processLines (lines : List (List Char)) :
    ∀ st : LoopState, snapshotAgreesB st.helmet_live_data = true →
      snapshotAgreesB (processLines st lines).helmet_live_data = true := by
  induction lines with
  | nil => intro st h; exact h
  | cons l ls ih => intro st h; exact ih _ (snapshot_step st l h)

/-- Every entry ever in the history carries alert status `"ALERT"`,
preserved along any processed line list. -/
theorem processLines_alert (lines : List (List Char)) :
    ∀ st : LoopState,
      (∀ e ∈ st.helmet_live_data.history, e.alert_status = some ("ALERT")) →
      ∀ e ∈ (processLines st lines).helmet_live_data.history,
        e.alert_status = some ("ALERT") := by
  induction lines with
  | nil => intro st h; exact h
  | cons l ls ih =>
    intro st h
    apply ih
    intro e he
    rcases helmet_step st l with ⟨heq, _⟩ | ⟨e2, hsome, heq⟩
    · have hh : (processLine st l).helmet_live_data.history
          = st.helmet_live_data.history := by rw [heq]
      rw [hh] at he
      exact h e he
    · have hh : (processLine st l).helmet_live_data.history
          = boundedAppend st.helmet_live_data.history (some e2) := by rw [heq]
      rw [hh] at he
      have he2 : e ∈ st.helmet_live_data.history ++ [e2] := by
        simp only [boundedAppend] at he
        split at he
        · exact List.drop_subset _ _ he
        · exact he
      rcases List.mem_append.1 he2 with h1 | h1
      · exact h e h1
      · rw [List.mem_singleton.1 h1]
        exact (stepEntry_spec st l e2 hsome).1

/-! ## Facts about the colon split in extract_number -/

/-- A string of the form `s1 ++ ":" ++ s2` contains a colon. -/
theorem hasSubstr_colon (s1 s2 : List Char) :
    hasSubstr (s1 ++ (':') :: s2) ((":").data) = true := by
  induction s1 with
  | nil => simp [hasSubstr, startsWithCL]
  | cons c cs ih =>
    simp only [List.cons_append, hasSubstr, Bool.or_eq_true]
    exact Or.inr ih

/-- Splitting at the FIRST colon: everything after it. -/
theorem afterColon_append (s1 s2 : List Char) (h : (':') ∉ s1) :
    afterColon (s1 ++ (':') :: s2) = s2 := by
  induction s1 with
  | nil => simp [afterColon]
  | cons c cs ih =>
    rw [List.mem_cons, not_or] at h
    rw [List.cons_append, afterColon, if_neg (fun hc => h.1 hc.symm)]
    exact ih h.2

/-! ## Claim theorems -/

/-- **C1** (claim refuted by the code — code bug).  On the scenario lines
the code produces exactly one new Reading appended to History and
reflected in CurrentSnapshot, with temperature 28.5 (`Dec` mantissa 285,
exponent 1), gasLevel 120 and flameDetected false as the claim states —
but its alertStatus is `"ALERT"`, not `Normal`: the affirmative check
`"ALERT" in line` (src/main.py:149) sits inside the branch guarded by
`"ALERT STATUS" in line` (line 148), so it succeeds on every trigger line
and the `"Normal"` outcome of line 150 is unreachable. -/
theorem C1_scenario_code_result :
    (processLines initState scenario1Lines).helmet_live_data.history
        = [⟨some ⟨285, 1⟩, some 120, some false, none, none, none, some ("ALERT")⟩]
    ∧ (⟨285, 1⟩ : Dec).toRat = 28.5
    ∧ (processLines initState scenario1Lines).helmet_live_data.temperature = some ⟨285, 1⟩
    ∧ (processLines initState scenario1Lines).helmet_live_data.mq2_value = some 120
    ∧ (processLines initState scenario1Lines).helmet_live_data.flame_detected = some false
    ∧ (processLines initState scenario1Lines).helmet_live_data.alert_status = some ("ALERT")
    ∧ (processLines initState scenario1Lines).helmet_live_data.alert_status ≠ some ("Normal") := by
  refine ⟨by decide, ?_, by decide, by decide, by decide, by decide, by decide⟩
  simp only [Dec.toRat]
  norm_num

/-- **C2.** From the initial (empty-history) state, processing any line
list leaves History with at most 100 entries, and History equals exactly
the last 100 finalized Readings in finalize (oldest-to-newest) order — so
on overflow the oldest entries are evicted first. -/
theorem C2_history_bounded (lines : List (List Char)) :
    (processLines initState lines).helmet_live_data.history.length ≤ 100
    ∧ (processLines initState lines).helmet_live_data.history
        = lastN 100 (entriesFrom initState lines) := by
  constructor
  · exact processLines_history_length lines initState (by decide)
  · have h := processLines_history lines initState (by decide)
    simpa [initState, initHelmet] using h

/-- **C3.** After processing any line list from the initial state, the
flat CurrentSnapshot fields (temperature, gasLevel, flameDetected,
heartRate, bloodOxygen, alertStatus) agree with the last entry of History
whenever History is non-empty, with the snapshot heart rate equal to the
entry's instant heart rate if present, else its average: snapshot and
History tail are updated in the same finalize step and never out of
sync. -/
theorem C3_snapshot_consistent (lines : List (List Char)) :
    snapshotAgreesB (processLines initState lines).helmet_live_data = true :=
  snapshotAgrees_processLines lines initState (by decide)

/-- **C4.** `extract_number` (modelled as a total Lean function, hence
pure, deterministic and non-raising) searches only the text after the
FIRST colon when the input contains one, returning the leftmost signed,
optionally-decimal literal as a float, and absent when nothing matches:
it yields 36.6 on "Temperature: 36.6 C", absent on "Temperature:", and
absent on "noise". -/
theorem C4_extract_number_spec :
    extract_number (("Temperature: 36.6 C").data) = some ⟨366, 1⟩
    ∧ (⟨366, 1⟩ : Dec).toRat = 36.6
    ∧ extract_number (("Temperature:").data) = none
    ∧ extract_number (("noise").data) = none
    ∧ (∀ s1 s2 : List Char, (':') ∉ s1 →
        extract_number (s1 ++ (':') :: s2) = (reSearch s2).map parseFloatTok) := by
  refine ⟨by decide, ?_, by decide, by decide, ?_⟩
  · simp only [Dec.toRat]
    norm_num
  · intro s1 s2 h
    simp only [extract_number, if_pos (hasSubstr_colon s1 s2), afterColon_append s1 s2 h]

/-- Witness for C4's colon-splitting clause at a concrete input. -/
theorem C4_witness :
    extract_number ((("ab").data) ++ (':') :: (("7x").data))
      = (reSearch (("7x").data)).map parseFloatTok :=
  C4_extract_number_spec.2.2.2.2 (("ab").data) (("7x").data) (by decide)

/-- **C9.** Every finalized Reading appended to History carries alert
status `"ALERT"`: the trigger keyword `"ALERT STATUS"` itself contains the
affirmative marker `"ALERT"`, so the check at src/main.py:149 succeeds on
every trigger line, and no finalized Reading ever carries `"Normal"` or
`"Smoke Alert"`. -/
theorem C9_finalized_always_alert (lines : List (List Char)) :
    ∀ e ∈ (processLines initState lines).helmet_live_data.history,
      e.alert_status = some ("ALERT") :=
  processLines_alert lines initState (by simp [initState, initHelmet])

/-- Witness for C9: a concrete run finalizing one Reading. -/
theorem C9_witness :
    (⟨some ⟨1, 0⟩, none, none, none, none, none, some ("ALERT")⟩ : HistoryEntry).alert_status
      = some ("ALERT") :=
  C9_finalized_always_alert [(("Temperature: 1").data), (("ALERT STATUS").data)]
    ⟨some ⟨1, 0⟩, none, none, none, none, none, some ("ALERT")⟩ (by decide)

/-- **C5.** From any state in which both temperature and gasLevel are
absent in the partial reading, processing a trigger line produces no new
Reading: History (length and contents) and every CurrentSnapshot field are
unchanged; `processLine` is total, so no error is raised. -/
theorem C5_trigger_no_core_data (st : LoopState) (line : List Char)
    (ht : st.current_reading.temperature = none)
    (hm : st.current_reading.mq2_value = none)
    (htrig : hasSubstr line (("ALERT STATUS").data) = true) :
    (processLine st line).helmet_live_data = st.helmet_live_data := by
  rcases helmet_step st line with ⟨heq, _⟩ | ⟨e, hsome, heq⟩
  · exact heq
  · exfalso
    have hg := (stepEntry_spec st line e hsome).2
    rw [ht, hm] at hg
    simp at hg

/-- Witness for C5: a concrete incomplete trigger. -/
theorem C5_witness :
    (processLine initState (("ALERT STATUS: Normal").data)).helmet_live_data
      = initState.helmet_live_data :=
  C5_trigger_no_core_data initState (("ALERT STATUS: Normal").data) rfl rfl (by decide)

/-- **C6.** A line classified as a smoke-detected line (smoke keyword
present, not claimed by the temperature or gas branches) clears the
partial reading's flame-detected flag to false, sets its alert status to
`"Smoke Alert"` exactly when the line carries the affirmative marker
(leaving it unchanged otherwise), and leaves every other partial field —
and the published state — unchanged. -/
theorem C6_smoke_line (st : LoopState) (line : List Char)
    (hs : hasSubstr (normalizeLine line) (("Smoke Detected").data) = true)
    (h1 : (hasSubstr (normalizeLine line) (("Temperature").data)
            && hasSubstr (normalizeLine line) ((":").data)) = false)
    (h2 : hasSubstr (normalizeLine line) (("MQ2 Value").data) = false) :
    (processLine st line).current_reading.flame_detected = some false
    ∧ (processLine st line).current_reading.alert_status
        = (if hasSubstr (upperCL (normalizeLine line)) (("YES").data) = true
           then some ("Smoke Alert") else st.current_reading.alert_status)
    ∧ (processLine st line).current_reading.temperature = st.current_reading.temperature
    ∧ (processLine st line).current_reading.mq2_value = st.current_reading.mq2_value
    ∧ (processLine st line).current_reading.heart_rate = st.current_reading.heart_rate
    ∧ (processLine st line).current_reading.heart_rate_avg = st.current_reading.heart_rate_avg
    ∧ (processLine st line).current_reading.spo2 = st.current_reading.spo2
    ∧ (processLine st line).helmet_live_data = st.helmet_live_data := by
  have h0 : ¬(line.isEmpty = true) := by
    intro h0
    rw [List.isEmpty_eq_true] at h0
    subst h0
    exact absurd hs (by decide)
  have h1' : ¬((hasSubstr (normalizeLine line) (("Temperature").data)
                 && hasSubstr (normalizeLine line) ((":").data)) = true) := by simp [h1]
  have h2' : ¬(hasSubstr (normalizeLine line) (("MQ2 Value").data) = true) := by simp [h2]
  simp only [processLine, if_neg h0, if_neg h1', if_neg h2', if_pos hs]
  by_cases hy : hasSubstr (upperCL (normalizeLine line)) (("YES").data) = true
  · simp only [if_pos hy] <;>
      exact ⟨by trivial, by trivial, by trivial, by trivial, by trivial, by trivial,
             by trivial, by trivial⟩
  · simp only [if_neg hy] <;>
      exact ⟨by trivial, by trivial, by trivial, by trivial, by trivial, by trivial,
             by trivial, by trivial⟩

/-- Witness for C6: a concrete affirmative smoke line. -/
theorem C6_witness :
    (processLine initState (("Smoke Detected: YES").data)).current_reading.flame_detected
        = some false
    ∧ (processLine initState (("Smoke Detected: YES").data)).current_reading.alert_status
        = (if hasSubstr (upperCL (normalizeLine (("Smoke Detected: YES").data)))
              (("YES").data) = true
           then some ("Smoke Alert") else initState.current_reading.alert_status)
    ∧ (processLine initState (("Smoke Detected: YES").data)).current_reading.temperature
        = initState.current_reading.temperature
    ∧ (processLine initState (("Smoke Detected: YES").data)).current_reading.mq2_value
        = initState.current_reading.mq2_value
    ∧ (processLine initState (("Smoke Detected: YES").data)).current_reading.heart_rate
        = initState.current_reading.heart_rate
    ∧ (processLine initState (("Smoke Detected: YES").data)).current_reading.heart_rate_avg
        = initState.current_reading.heart_rate_avg
    ∧ (processLine initState (("Smoke Detected: YES").data)).current_reading.spo2
        = initState.current_reading.spo2
    ∧ (processLine initState (("Smoke Detected: YES").data)).helmet_live_data
        = initState.helmet_live_data :=
  C6_smoke_line initState (("Smoke Detected: YES").data) (by decide) (by decide) (by decide)

/-- **C7 counterexample.** A line reporting a raw flame sensor value is NOT
always excluded from flame-detected classification: when the line also
contains the question-marked keyword `"Flame Detected?"`, the first
disjunct of src/main.py:125 matches and the flame flag IS updated, despite
the `"Flame Raw"` marker. -/
theorem C7_counterexample :
    hasSubstr (normalizeLine (("Flame Raw: 512 Flame Detected? YES").data))
        (("Flame Raw").data) = true
    ∧ (processLine initState
        (("Flame Raw: 512 Flame Detected? YES").data)).current_reading.flame_detected
        ≠ initState.current_reading.flame_detected := by decide

/-- **C7 (amended).** A line carrying the raw-flame marker and NOT the
question-marked flame keyword — and not claimed by the temperature, gas,
smoke, or trigger branches — never updates the partial reading's
flame-detected flag, even if it contains the plain `"Flame Detected"`
keyword: the exclusion of src/main.py:125 guards only the plain keyword
match. -/
theorem C7_raw_flame_excluded (st : LoopState) (line : List Char)
    (hraw : hasSubstr (normalizeLine line) (("Flame Raw").data) = true)
    (hq : hasSubstr (normalizeLine line) (("Flame Detected?").data) = false)
    (h1 : (hasSubstr (normalizeLine line) (("Temperature").data)
            && hasSubstr (normalizeLine line) ((":").data)) = false)
    (h2 : hasSubstr (normalizeLine line) (("MQ2 Value").data) = false)
    (h3 : hasSubstr (normalizeLine line) (("Smoke Detected").data) = false)
    (h8 : hasSubstr line (("ALERT STATUS").data) = false) :
    (processLine st line).current_reading.flame_detected
      = st.current_reading.flame_detected := by
  have h0 : ¬(line.isEmpty = true) := by
    intro h0
    rw [List.isEmpty_eq_true] at h0
    subst h0
    exact absurd hraw (by decide)
  have h1' : ¬((hasSubstr (normalizeLine line) (("Temperature").data)
                 && hasSubstr (normalizeLine line) ((":").data)) = true) := by simp [h1]
  have h2' : ¬(hasSubstr (normalizeLine line) (("MQ2 Value").data) = true) := by simp [h2]
  have h3' : ¬(hasSubstr (normalizeLine line) (("Smoke Detected").data) = true) := by simp [h3]
  have h4' : ¬((hasSubstr (normalizeLine line) (("Flame Detected?").data)
                 || (hasSubstr (normalizeLine line) (("Flame Detected").data)
                     && !hasSubstr (normalizeLine line) (("Flame Raw").data))) = true) := by
    simp [hq, hraw]
  have h8' : ¬(hasSubstr line (("ALERT STATUS").data) = true) := by simp [h8]
  simp only [processLine, if_neg h0, if_neg h1', if_neg h2', if_neg h3', if_neg h4']
  by_cases h5 : hasSubstr (normalizeLine line) (("Avg HR").data) = true
  · simp only [if_pos h5]
  simp only [if_neg h5]
  by_cases h6 : (hasSubstr (normalizeLine line) (("HR (BPM)").data)
                  || hasSubstr (normalizeLine line) (("Heart Rate").data)) = true
  · simp only [if_pos h6]
  simp only [if_neg h6]
  by_cases h7 : hasSubstr (normalizeLine line) (("SpO2 (%)").data) = true
  · simp only [if_pos h7]
  simp only [if_neg h7, if_neg h8']

/-- Witness for C7 (amended): a plain raw-flame line. -/
theorem C7_witness :
    (processLine initState (("Flame Raw: 512").data)).current_reading.flame_detected
      = initState.current_reading.flame_detected :=
  C7_raw_flame_excluded initState (("Flame Raw: 512").data)
    (by decide) (by decide) (by decide) (by decide) (by decide) (by decide)

/-- **C8 counterexample.** An incomplete trigger line is consumed without
producing a Reading, but the partial reading is NOT left fully as-is: its
alert-status field is overwritten at src/main.py:150 before the guard is
evaluated (here from `none` to `some "ALERT"`). -/
theorem C8_counterexample :
    (processLine initState (("ALERT STATUS: Normal").data)).helmet_live_data.history
      = initState.helmet_live_data.history
    ∧ (processLine initState (("ALERT STATUS: Normal").data)).current_reading.alert_status
      ≠ initState.current_reading.alert_status := by decide

/-- **C8 (amended).** When a line classified as a trigger arrives while
neither temperature nor gasLevel is present, the trigger is consumed
without producing a Reading (History and CurrentSnapshot unchanged), every
partial-reading field EXCEPT alert status keeps its value, and the alert
status is overwritten from the trigger line's own content; that state
persists into the next cycle — no reset occurs. -/
theorem C8_incomplete_trigger_state (st : LoopState) (line : List Char)
    (ht : st.current_reading.temperature = none)
    (hm : st.current_reading.mq2_value = none)
    (h1 : (hasSubstr (normalizeLine line) (("Temperature").data)
            && hasSubstr (normalizeLine line) ((":").data)) = false)
    (h2 : hasSubstr (normalizeLine line) (("MQ2 Value").data) = false)
    (h3 : hasSubstr (normalizeLine line) (("Smoke Detected").data) = false)
    (h4 : (hasSubstr (normalizeLine line) (("Flame Detected?").data)
            || (hasSubstr (normalizeLine line) (("Flame Detected").data)
                && !hasSubstr (normalizeLine line) (("Flame Raw").data))) = false)
    (h5 : hasSubstr (normalizeLine line) (("Avg HR").data) = false)
    (h6 : (hasSubstr (normalizeLine line) (("HR (BPM)").data)
            || hasSubstr (normalizeLine line) (("Heart Rate").data)) = false)
    (h7 : hasSubstr (normalizeLine line) (("SpO2 (%)").data) = false)
    (h8 : hasSubstr line (("ALERT STATUS").data) = true) :
    (processLine st line).helmet_live_data = st.helmet_live_data
    ∧ (processLine st line).current_reading
        = { st.current_reading with alert_status := (some
              (if (hasSubstr line (("ALERT").data)
                   || hasSubstr line (("🚨").data)) = true
               then ("ALERT") else ("Normal"))) } := by
  have h0 : ¬(line.isEmpty = true) := by
    intro h0
    rw [List.isEmpty_eq_true] at h0
    subst h0
    exact absurd h8 (by decide)
  have h1' : ¬((hasSubstr (normalizeLine line) (("Temperature").data)
                 && hasSubstr (normalizeLine line) ((":").data)) = true) := by simp [h1]
  have h2' : ¬(hasSubstr (normalizeLine line) (("MQ2 Value").data) = true) := by simp [h2]
  have h3' : ¬(hasSubstr (normalizeLine line) (("Smoke Detected").data) = true) := by simp [h3]
  have h4' : ¬((hasSubstr (normalizeLine line) (("Flame Detected?").data)
                 || (hasSubstr (normalizeLine line) (("Flame Detected").data)
                     && !hasSubstr (normalizeLine line) (("Flame Raw").data))) = true) := by
    simp [h4]
  have h5' : ¬(hasSubstr (normalizeLine line) (("Avg HR").data) = true) := by simp [h5]
  have h6' : ¬((hasSubstr (normalizeLine line) (("HR (BPM)").data)
                 || hasSubstr (normalizeLine line) (("Heart Rate").data)) = true) := by simp [h6]
  have h7' : ¬(hasSubstr (normalizeLine line) (("SpO2 (%)").data) = true) := by simp [h7]
  have hg : ¬((st.current_reading.temperature.isSome
                || st.current_reading.mq2_value.isSome) = true) := by
    simp [ht, hm]
  simp only [processLine, if_neg h0, if_neg h1', if_neg h2', if_neg h3', if_neg h4',
    if_neg h5', if_neg h6', if_neg h7', if_pos h8, triggerStep, if_neg hg]
  exact ⟨by trivial, by trivial⟩

/-- Witness for C8 (amended) at a concrete incomplete trigger. -/
theorem C8_witness :
    (processLine initState (("ALERT STATUS: Normal").data)).helmet_live_data
        = initState.helmet_live_data
    ∧ (processLine initState (("ALERT STATUS: Normal").data)).current_reading
        = { initState.current_reading with alert_status := (some
              (if (hasSubstr (("ALERT STATUS: Normal").data) (("ALERT").data)
                   || hasSubstr (("ALERT STATUS: Normal").data) (("🚨").data)) = true
               then ("ALERT") else ("Normal"))) } :=
  C8_incomplete_trigger_state initState (("ALERT STATUS: Normal").data) rfl rfl
    (by decide) (by decide) (by decide) (by decide) (by decide) (by decide) (by decide)
    (by decide)

/-- **C10.** A recognized temperature line whose value is not extractable
sets the partial temperature to 0.0 (`Dec` ⟨0,0⟩) rather than leaving it
absent, and a recognized gas-sensor line with no extractable value sets
gasLevel to 0; consequently the malformed line alone satisfies the
finalize guard, and a following trigger line appends a Reading with
temperature 0.0 to History. -/
theorem C10_malformed_value_defaults :
    (∀ st : LoopState, ∀ line : List Char,
        (hasSubstr (normalizeLine line) (("Temperature").data)
          && hasSubstr (normalizeLine line) ((":").data)) = true →
        extract_number (normalizeLine line) = none →
        (processLine st line).current_reading.temperature = some ⟨0, 0⟩)
    ∧ (∀ st : LoopState, ∀ line : List Char,
        (hasSubstr (normalizeLine line) (("Temperature").data)
          && hasSubstr (normalizeLine line) ((":").data)) = false →
        hasSubstr (normalizeLine line) (("MQ2 Value").data) = true →
        extract_number (normalizeLine line) = none →
        (processLine st line).current_reading.mq2_value = some 0)
    ∧ (⟨0, 0⟩ : Dec).toRat = 0
    ∧ (processLines initState
        [(("Temperature:").data), (("ALERT STATUS: Normal").data)]).helmet_live_data.history
        = [⟨some ⟨0, 0⟩, none, none, none, none, none, some ("ALERT")⟩] := by
  refine ⟨?_, ?_, ?_, by decide⟩
  · intro st line hcond hext
    have h0 : ¬(line.isEmpty = true) := by
      intro h0
      rw [List.isEmpty_eq_true] at h0
      subst h0
      exact absurd hcond (by decide)
    simp only [processLine, if_neg h0, if_pos hcond, hext]
    rfl
  · intro st line hno hcond hext
    have h0 : ¬(line.isEmpty = true) := by
      intro h0
      rw [List.isEmpty_eq_true] at h0
      subst h0
      exact absurd hcond (by decide)
    have hno' : ¬((hasSubstr (normalizeLine line) (("Temperature").data)
                    && hasSubstr (normalizeLine line) ((":").data)) = true) := by simp [hno]
    simp only [processLine, if_neg h0, if_neg hno', if_pos hcond, hext]
  · simp only [Dec.toRat]
    norm_num

/-- Witness for C10 at concrete malformed lines. -/
theorem C10_witness :
    (processLine initState (("Temperature:").data)).current_reading.temperature = some ⟨0, 0⟩
    ∧ (processLine initState (("MQ2 Value: abc").data)).current_reading.mq2_value = some 0 :=
  ⟨C10_malformed_value_defaults.1 initState (("Temperature:").data) (by decide) (by decide),
   C10_malformed_value_defaults.2.1 initState (("MQ2 Value: abc").data)
     (by decide) (by decide) (by decide)⟩

/-- Witness for C2 at a concrete line list. -/
theorem C2_witness :
    (processLines initState scenario1Lines).helmet_live_data.history.length ≤ 100
    ∧ (processLines initState scenario1Lines).helmet_live_data.history
        = lastN 100 (entriesFrom initState scenario1Lines) :=
  C2_history_bounded scenario1Lines

/-- Witness for C3 at a concrete line list. -/
theorem C3_witness :
    snapshotAgreesB (processLines initState scenario1Lines).helmet_live_data = true :=
  C3_snapshot_consistent scenario1Lines
